import Mathlib

/-!
Verification of the `antimodern` frame pipeline (a wgpu-based triangle
renderer with a triple-buffered instance store).

The Rust source is shallowly embedded below:

* `Vec3` / `Mat3` correspond to the `glam` vector/matrix types used by the
  code (the source computes in `f32`; we model the arithmetic over an
  arbitrary field and instantiate with `ℝ` for the analytic statements).
* `Renderer.render` (from `src/renderer.rs`) is embedded as a pure state
  transformer over `RendererState`, with the success/failure of the two
  asynchronous map operations and of surface-frame acquisition supplied as
  explicit inputs.
* `configure_surface` (from `src/main.rs`) and `GPUContext.resize_surface`
  (from `src/renderer.rs`) are embedded over a record of the stored
  surface configuration.
-/

namespace Antimodern

/-- `glam::Vec3`: a three-component vector.  The source stores `f32`
components; we keep the component type abstract. -/
structure Vec3 (α : Type) where
  x : α
  y : α
  z : α
deriving Repr, DecidableEq

/-- `glam::Mat3`, stored by columns exactly as `glam` does
(`x_axis`, `y_axis`, `z_axis`). -/
structure Mat3 (α : Type) where
  xAxis : Vec3 α
  yAxis : Vec3 α
  zAxis : Vec3 α
deriving Repr, DecidableEq

/-- `glam::Mat3::from_rotation_y(angle)` builds
`from_cols((cos, 0, -sin), (0, 1, 0), (sin, 0, cos))`.  We take the
cosine and sine of the angle as parameters `c` and `s`. -/
def Mat3.fromRotationY {α : Type} [Field α] (c s : α) : Mat3 α :=
  ⟨⟨c, 0, -s⟩, ⟨0, 1, 0⟩, ⟨s, 0, c⟩⟩

/-- Column-matrix times vector, as `glam` implements `Mat3 * Vec3`:
`x_axis * v.x + y_axis * v.y + z_axis * v.z`. -/
def Mat3.mulVec {α : Type} [Field α] (m : Mat3 α) (v : Vec3 α) : Vec3 α :=
  ⟨m.xAxis.x * v.x + m.yAxis.x * v.y + m.zAxis.x * v.z,
   m.xAxis.y * v.x + m.yAxis.y * v.y + m.zAxis.y * v.z,
   m.xAxis.z * v.x + m.yAxis.z * v.y + m.zAxis.z * v.z⟩

/-- The host-side per-frame transform of `Renderer::render`
(`src/renderer.rs` lines 254–256): every one of the 3 instance vectors is
replaced by `Mat3::from_rotation_y(0.1) * v`.  `c` and `s` stand for
`cos 0.1` and `sin 0.1`. -/
def rotateInstances {α : Type} [Field α] (c s : α) (vs : Fin 3 → Vec3 α) :
    Fin 3 → Vec3 α :=
  fun i => (Mat3.fromRotationY c s).mulVec (vs i)

/-- The initial instance offsets of `Renderer::new` (`src/renderer.rs`
line 126): `[vec3(0, 0, 0), vec3(-0.5, 0, 0), vec3(0.5, 0, 0)]`. -/
def initialInstances (α : Type) [Field α] : Fin 3 → Vec3 α :=
  fun i =>
    match i with
    | 0 => ⟨0, 0, 0⟩
    | 1 => ⟨-(1 / 2), 0, 0⟩
    | 2 => ⟨1 / 2, 0, 0⟩

/-- `const NUM_MAX_INFLIGHT_BUFFERS: usize = 3;` (`src/renderer.rs`
line 93). -/
def NUM_MAX_INFLIGHT_BUFFERS : Nat := 3

/-- The initial contents of the frame cursor:
`let frame = futures::lock::Mutex::new(3);` (`src/renderer.rs` line 112). -/
def initialFrame : Nat := 3

/-- The cursor advance performed once at the top of every `render` call:
`frame = (frame + 1) % NUM_MAX_INFLIGHT_BUFFERS` (`src/renderer.rs`
line 241). -/
def nextFrame (f : Nat) : Nat := (f + 1) % NUM_MAX_INFLIGHT_BUFFERS

/-- The slot index selected by the `i`-th `render` call (0-indexed) when
the cursor starts at `f0`: each call advances the cursor once and then
uses the advanced value to index the instance-buffer pool. -/
def selectedSlot (f0 : Nat) : Nat → Nat
  | 0 => nextFrame f0
  | n + 1 => nextFrame (selectedSlot f0 n)

theorem selectedSlot_lt (f0 i : Nat) : selectedSlot f0 i < 3 := by
  cases i with
  | zero => exact Nat.mod_lt _ (by decide)
  | succ n => exact Nat.mod_lt _ (by decide)

theorem selectedSlot_closed (f0 : Nat) :
    ∀ i, selectedSlot f0 i = (f0 + 1 + i) % 3 := by
  intro i
  induction i with
  | zero => rfl
  | succ n ih =>
      show nextFrame (selectedSlot f0 n) = _
      rw [ih]
      unfold nextFrame NUM_MAX_INFLIGHT_BUFFERS
      omega

/-- The host-visible state mutated by `Renderer::render`
(`src/renderer.rs` lines 239–323): the frame cursor, the three instance
buffer slots (each holding 3 vectors), the vertex and uniform buffers
(which `render` never writes), and counters for the observable GPU-side
effects (`get_current_texture` attempts, `queue.submit` calls,
`frame_buffer.present` calls, surface reconfigurations). -/
structure RendererState (α : Type) where
  frame : Nat
  instanceBuffer : Fin 3 → Fin 3 → Vec3 α
  vertexBuffer : Fin 3 → Vec3 α
  uniformBuffer : List α
  acquireAttempts : Nat
  submissions : Nat
  presented : Nat
  reconfigures : Nat

/-- The error type of a failed `map_async` call (wgpu's
`BufferAsyncError`), propagated out of `render` by the `?` operator. -/
inductive MapError where
  | bufferAsyncError
deriving Repr, DecidableEq

/-- The three ways a `render` call can end: `Ok(())`, an early `Err`
return from a failed `map_async` (the `?` on lines 251 and 259–261), or a
panic from `.expect("Failed to get next surface texture")` (line 270).
Each outcome carries the renderer state at that point. -/
inductive RenderOutcome (α : Type) where
  | ok (st : RendererState α)
  | err (e : MapError) (st : RendererState α)
  | panicked (msg : String) (st : RendererState α)

/-- The renderer state carried by an outcome. -/
def RenderOutcome.state {α : Type} : RenderOutcome α → RendererState α
  | .ok st => st
  | .err _ st => st
  | .panicked _ st => st

/-- Whether the outcome is a panic (process abort). -/
def RenderOutcome.isPanic {α : Type} : RenderOutcome α → Bool
  | .panicked _ _ => true
  | _ => false

/-- Whether the outcome is a typed `Err` return. -/
def RenderOutcome.isErr {α : Type} : RenderOutcome α → Bool
  | .err _ _ => true
  | _ => false

/-- The panic message, when the outcome is a panic. -/
def RenderOutcome.panicMsg {α : Type} : RenderOutcome α → Option String
  | .panicked m _ => some m
  | _ => none

/-- Shallow embedding of `Renderer::render` (`src/renderer.rs`
lines 239–323).  `c`/`s` are the cosine and sine of the rotation angle
`0.1`; `mapReadOk`, `mapWriteOk` and `surfaceOk` say whether the two
asynchronous map operations and `surface.get_current_texture()` succeed.
Steps, in source order: advance the cursor `(frame + 1) % 3` and store it
back; map the selected slot for read (`?` on failure); rotate the 3
vectors; unmap; map for write (`?` on failure); copy the rotated vectors
back; unmap; acquire the frame target (`.expect` panics on failure);
record the pass; submit; present; await `on_submitted_work_done`. -/
def Renderer.render {α : Type} [Field α] (c s : α)
    (mapReadOk mapWriteOk surfaceOk : Bool) (st : RendererState α) :
    RenderOutcome α :=
  let frame := (st.frame + 1) % NUM_MAX_INFLIGHT_BUFFERS
  let st1 := { st with frame := frame }
  if mapReadOk = false then .err .bufferAsyncError st1
  else
    let hf : frame < 3 := Nat.mod_lt _ (by decide)
    let vertices := rotateInstances c s (st1.instanceBuffer ⟨frame, hf⟩)
    if mapWriteOk = false then .err .bufferAsyncError st1
    else
      let st2 := { st1 with
        instanceBuffer := Function.update st1.instanceBuffer ⟨frame, hf⟩ vertices,
        acquireAttempts := st1.acquireAttempts + 1 }
      if surfaceOk = false then
        .panicked "Failed to get next surface texture" st2
      else
        .ok { st2 with
          submissions := st2.submissions + 1,
          presented := st2.presented + 1 }

/-- The observable events of one successful `render` call, in the order
they appear in `src/renderer.rs` lines 240–322: cursor advance, read map,
host transform, unmap, write map, write back, unmap, frame acquisition,
pass recording, submit, present, the await of
`queue.on_submitted_work_done()`, and only then the `Ok(())` return. -/
inductive RenderEvent where
  | advanceCursor
  | mapRead
  | transform
  | unmapRead
  | mapWrite
  | writeBack
  | unmapWrite
  | acquireFrame
  | recordPass
  | submit
  | present
  | awaitWorkDone
  | returnOk
deriving Repr, DecidableEq, BEq

/-- The event trace of a successful `render` call, read off the body of
`Renderer::render` in source order. -/
def renderTrace : List RenderEvent :=
  [.advanceCursor, .mapRead, .transform, .unmapRead, .mapWrite,
   .writeBack, .unmapWrite, .acquireFrame, .recordPass, .submit,
   .present, .awaitWorkDone, .returnOk]

/-- wgpu's `PresentMode`; the source only ever uses `Fifo`. -/
inductive PresentMode where
  | Fifo
  | Immediate
  | Mailbox
deriving Repr, DecidableEq

/-- wgpu's `TextureFormat`, kept opaque: the source picks one via
`surface.get_preferred_format(&adapter)` at startup and never changes it. -/
structure TextureFormat where
  id : Nat
deriving Repr, DecidableEq

/-- The single texture usage the source requests for the surface. -/
inductive TextureUsages where
  | renderAttachment
deriving Repr, DecidableEq

/-- wgpu's `SurfaceConfiguration` as built by the source. -/
structure SurfaceConfiguration where
  usage : TextureUsages
  format : TextureFormat
  width : Nat
  height : Nat
  present_mode : PresentMode
deriving Repr, DecidableEq

/-- A device, abstracted to the one capability relevant here: which
format/size combinations it supports.  The source never consults this
when configuring. -/
structure Device where
  supports : TextureFormat → Nat → Nat → Bool

/-- A configuration error, the kind the spec says `configure` reports.
The embedded `configure_surface` below never produces one, exactly as the
source always returns `Ok(())`. -/
inductive ConfigError where
  | unsupported
deriving Repr, DecidableEq

/-- Shallow embedding of `configure_surface` (`src/main.rs`
lines 222–240): builds a `SurfaceConfiguration` with the fixed
`RENDER_ATTACHMENT` usage, the startup format, the given size and
`PresentMode::Fifo`, applies it, and returns `Ok(())` unconditionally —
the device's capabilities are never checked in the return value. -/
def configure_surface (device : Device) (surface_format : TextureFormat)
    (size : Nat × Nat) : Except ConfigError SurfaceConfiguration :=
  Except.ok
    { usage := .renderAttachment,
      format := surface_format,
      width := size.1,
      height := size.2,
      present_mode := .Fifo }

/-- The `GPUContext` of `src/renderer.rs`, restricted to the stored
surface configuration (the surface, device and queue handles are opaque
collaborators). -/
structure GPUContext where
  surface_configuration : SurfaceConfiguration
deriving Repr, DecidableEq

/-- Shallow embedding of `GPUContext::resize_surface` (`src/renderer.rs`
lines 85–91): overwrite the stored configuration's width and height with
the new size and reconfigure the surface with it. -/
def GPUContext.resize_surface (ctx : GPUContext) (size : Nat × Nat) :
    GPUContext :=
  { ctx with
    surface_configuration :=
      { ctx.surface_configuration with width := size.1, height := size.2 } }

/-- The dimensions of a successfully acquired frame target: wgpu's
`get_current_texture` yields a texture of the currently configured size. -/
def GPUContext.acquiredFrameDims (ctx : GPUContext) : Nat × Nat :=
  (ctx.surface_configuration.width, ctx.surface_configuration.height)

/-- The window events the embedded event loop distinguishes. -/
inductive WindowEvent where
  | CloseRequested
  | Resized (size : Nat × Nat)
  | Other
deriving Repr, DecidableEq

/-- The window-event arm of the event loop (`src/app.rs` lines 42–46):
`Resized(size)` reconfigures the surface; other window events leave the
graphics context untouched. -/
def App.handleWindowEvent (ctx : GPUContext) (e : WindowEvent) : GPUContext :=
  match e with
  | .Resized size => ctx.resize_surface size
  | _ => ctx

/-- Modelled from the spec: the Device Poller's fixed wakeup interval
(§4.4, "periodically (fixed interval, ~100ms)").  No polling code is
present under `src/`; the poller variant of the repository is missing
from the given sources. -/
def pollIntervalMillis : Nat := 100

/-- Modelled from the spec: the poller's `n`-th wakeup time in
milliseconds — wakeups at a fixed 100ms interval. -/
def pollTime (n : Nat) : Nat := (n + 1) * pollIntervalMillis

/-- Modelled from the spec: the device's internal completion queue of
pending asynchronous map/submit-completion operations (identified here by
natural-number tokens), split into still-pending and resolved. -/
structure CompletionQueue where
  pending : List Nat
  resolved : List Nat
deriving Repr, DecidableEq

/-- Modelled from the spec: one poller wakeup "drives forward the
device's internal completion queue" — every pending asynchronous
operation resolves.  The tick takes no renderer or frame state: it runs
independently of whether any frame pipeline is running. -/
def devicePollTick (q : CompletionQueue) : CompletionQueue :=
  { pending := [], resolved := q.resolved ++ q.pending }

/-- A renderer state for concrete evaluation: the cursor at its initial
value `3` and all buffers zeroed, over `ℚ`. -/
def sampleState : RendererState ℚ :=
  { frame := initialFrame,
    instanceBuffer := fun _ _ => ⟨0, 0, 0⟩,
    vertexBuffer := fun _ => ⟨0, 0, 0⟩,
    uniformBuffer := [],
    acquireAttempts := 0,
    submissions := 0,
    presented := 0,
    reconfigures := 0 }

/-- A device that supports no format/size combination at all, used to
exhibit that `configure_surface` never consults device support. -/
def noSupportDevice : Device :=
  { supports := fun _ _ _ => false }

theorem rotY_on_x_axis {α : Type} [Field α] (c s a : α) :
    (Mat3.fromRotationY c s).mulVec ⟨a, 0, 0⟩ = ⟨a * c, 0, -(a * s)⟩ := by
  simp [Mat3.fromRotationY, Mat3.mulVec, Vec3.mk.injEq]
  constructor
  · ring
  · ring

/-- C1: the host-side transform applied to the mapped slot contents
rotates each of the 3 instance vectors by exactly 0.1 radian about the Y
axis (it is a pure function of the input vectors); starting from the
instance vectors [(0,0,0), (-0.5,0,0), (0.5,0,0)], one frame tick leaves
(0,0,0) unchanged and sends (-0.5,0,0) to
(-0.5·cos 0.1, 0, 0.5·sin 0.1) and (0.5,0,0) to
(0.5·cos 0.1, 0, -0.5·sin 0.1), each component within 1e-5 (here: exactly
equal) to the analytic result. -/
theorem frame_transform_rotation_y :
    rotateInstances (Real.cos 0.1) (Real.sin 0.1) (initialInstances ℝ) 0
        = ⟨0, 0, 0⟩ ∧
    rotateInstances (Real.cos 0.1) (Real.sin 0.1) (initialInstances ℝ) 1
        = ⟨-(1 / 2) * Real.cos 0.1, 0, (1 / 2) * Real.sin 0.1⟩ ∧
    rotateInstances (Real.cos 0.1) (Real.sin 0.1) (initialInstances ℝ) 2
        = ⟨(1 / 2) * Real.cos 0.1, 0, -((1 / 2) * Real.sin 0.1)⟩ ∧
    |(rotateInstances (Real.cos 0.1) (Real.sin 0.1) (initialInstances ℝ) 1).x
        - (-(1 / 2) * Real.cos 0.1)| ≤ 1 / 100000 ∧
    |(rotateInstances (Real.cos 0.1) (Real.sin 0.1) (initialInstances ℝ) 1).z
        - (1 / 2) * Real.sin 0.1| ≤ 1 / 100000 := by
  have h0 : rotateInstances (Real.cos 0.1) (Real.sin 0.1) (initialInstances ℝ) 0
      = ⟨0, 0, 0⟩ := by
    show (Mat3.fromRotationY _ _).mulVec ⟨0, 0, 0⟩ = _
    rw [rotY_on_x_axis]
    simp [Vec3.mk.injEq]
  have h1 : rotateInstances (Real.cos 0.1) (Real.sin 0.1) (initialInstances ℝ) 1
      = ⟨-(1 / 2) * Real.cos 0.1, 0, (1 / 2) * Real.sin 0.1⟩ := by
    show (Mat3.fromRotationY _ _).mulVec ⟨-(1 / 2), 0, 0⟩ = _
    rw [rotY_on_x_axis]
    simp [Vec3.mk.injEq]
  have h2 : rotateInstances (Real.cos 0.1) (Real.sin 0.1) (initialInstances ℝ) 2
      = ⟨(1 / 2) * Real.cos 0.1, 0, -((1 / 2) * Real.sin 0.1)⟩ := by
    show (Mat3.fromRotationY _ _).mulVec ⟨1 / 2, 0, 0⟩ = _
    rw [rotY_on_x_axis]
  refine ⟨h0, h1, h2, ?_, ?_⟩
  · rw [h1]
    simp
  · rw [h1]
    simp

/-- C2: for every sequence of k consecutive `render` calls, the sequence
of slot indices selected by the cursor advance is the arithmetic
progression (first + i) mod 3 for i in 0..k, and no slot index repeats
within any 3 consecutive frames. -/
theorem slot_sequence_progression (k : Nat) :
    (∀ i, i < k →
      selectedSlot initialFrame i = (selectedSlot initialFrame 0 + i) % 3) ∧
    (∀ i j, i < j → j < i + 3 →
      selectedSlot initialFrame i ≠ selectedSlot initialFrame j) := by
  constructor
  · intro i _
    rw [selectedSlot_closed, selectedSlot_closed]
    omega
  · intro i j hij hj3
    rw [selectedSlot_closed, selectedSlot_closed]
    omega

/-- Witness for C2 at k = 3: the second selected slot is (first + 2) mod
3 and the first two selected slots differ. -/
theorem slot_sequence_progression_witness :
    selectedSlot initialFrame 2 = (selectedSlot initialFrame 0 + 2) % 3 ∧
    selectedSlot initialFrame 0 ≠ selectedSlot initialFrame 1 :=
  ⟨(slot_sequence_progression 3).1 2 (by decide),
   (slot_sequence_progression 3).2 0 1 (by decide) (by decide)⟩

/-- C4 counterexample: the frame cursor's initial value, before the
first frame, is 3 — the pool size — which is NOT in the range [0,3), so
the claim's "including in the initial state before the first frame" is
false on the code (`futures::lock::Mutex::new(3)`). -/
theorem frame_cursor_initial_is_three :
    initialFrame = 3 ∧ ¬ initialFrame < 3 := by
  constructor
  · rfl
  · decide

/-- C4 (amended): after every `render` call the frame cursor lies in
[0,3); each call mutates it exactly once, via (cursor+1) mod
NUM_MAX_INFLIGHT_BUFFERS with NUM_MAX_INFLIGHT_BUFFERS = 3, before
reading it — the slot the call writes is indexed by the post-advance
value.  The initial value, however, is 3, outside [0,3). -/
theorem frame_cursor_advance {α : Type} [Field α] (c s : α)
    (mapReadOk mapWriteOk surfaceOk : Bool) (st : RendererState α) :
    NUM_MAX_INFLIGHT_BUFFERS = 3 ∧
    (Renderer.render c s mapReadOk mapWriteOk surfaceOk st).state.frame
        = (st.frame + 1) % NUM_MAX_INFLIGHT_BUFFERS ∧
    (Renderer.render c s mapReadOk mapWriteOk surfaceOk st).state.frame < 3 := by
  refine ⟨rfl, ?_, ?_⟩ <;>
    cases mapReadOk <;> cases mapWriteOk <;> cases surfaceOk <;>
      simp [Renderer.render, RenderOutcome.state, NUM_MAX_INFLIGHT_BUFFERS] <;>
      exact Nat.mod_lt _ (by decide)

/-- C3 counterexample: at a concrete renderer state, when frame
acquisition fails (outdated/lost surface), `render` performs ZERO
reconfigurations and makes only the one failed acquisition attempt — it
panics via `.expect("Failed to get next surface texture")` instead of
reconfiguring and retrying, refuting the claimed reconfigure-and-retry
behavior. -/
theorem acquire_failure_panics_at_outdated :
    (Renderer.render (0 : ℚ) 0 true true false sampleState).panicMsg
        = some "Failed to get next surface texture" ∧
    (Renderer.render (0 : ℚ) 0 true true false sampleState).state.reconfigures
        = sampleState.reconfigures ∧
    (Renderer.render (0 : ℚ) 0 true true false sampleState).state.acquireAttempts
        = sampleState.acquireAttempts + 1 :=
  ⟨rfl, rfl, rfl⟩

/-- C3 (amended): when frame acquisition fails, `render` does not
reconfigure the surface and does not retry: it makes exactly one
acquisition attempt and panics with "Failed to get next surface
texture", crashing rather than recovering. -/
theorem acquire_failure_no_reconfigure {α : Type} [Field α] (c s : α)
    (st : RendererState α) :
    (Renderer.render c s true true false st).isPanic = true ∧
    (Renderer.render c s true true false st).panicMsg
        = some "Failed to get next surface texture" ∧
    (Renderer.render c s true true false st).state.reconfigures
        = st.reconfigures ∧
    (Renderer.render c s true true false st).state.acquireAttempts
        = st.acquireAttempts + 1 := by
  refine ⟨?_, ?_, ?_, ?_⟩ <;>
    simp [Renderer.render, RenderOutcome.isPanic, RenderOutcome.panicMsg,
      RenderOutcome.state]

/-- C5 counterexample: in the event trace of a `render` call, the await
of the queue's all-prior-work-finished signal occurs, and it occurs
strictly before the call's `Ok(())` return — so the render call's
completion IS gated on that signal resolving, refuting the claim that
the wait is purely observational for the call's completion. -/
theorem render_return_after_await :
    renderTrace.contains RenderEvent.awaitWorkDone = true ∧
    renderTrace.indexOf RenderEvent.awaitWorkDone
        < renderTrace.indexOf RenderEvent.returnOk := by
  decide

/-- C5 (amended): submit and present do complete before the wait on the
queue's all-prior-submitted-work-finished signal begins, but the render
call itself awaits that signal before returning — the await is the last
event before `Ok(())` — so the call does not complete until the signal
resolves, and a caller that awaits `render` starts the next frame only
after the signal arrives. -/
theorem await_tail_order :
    renderTrace.indexOf RenderEvent.submit
        < renderTrace.indexOf RenderEvent.awaitWorkDone ∧
    renderTrace.indexOf RenderEvent.present
        < renderTrace.indexOf RenderEvent.awaitWorkDone ∧
    renderTrace.indexOf RenderEvent.awaitWorkDone
        < renderTrace.indexOf RenderEvent.returnOk ∧
    renderTrace.getLast? = some RenderEvent.returnOk := by
  decide

/-- C7: if either map operation fails during a frame, `render` aborts
the frame with a typed `Err` (the `?` operator), not a panic and not a
silent success: the instance buffers are unchanged (the failed write-map
wrote nothing), nothing is submitted or presented, and no frame target
is acquired. -/
theorem map_failure_typed_abort {α : Type} [Field α] (c s : α)
    (surfaceOk : Bool) (st : RendererState α) (mapReadOk mapWriteOk : Bool)
    (h : mapReadOk = false ∨ mapWriteOk = false) :
    (Renderer.render c s mapReadOk mapWriteOk surfaceOk st).isErr = true ∧
    (Renderer.render c s mapReadOk mapWriteOk surfaceOk st).isPanic = false ∧
    (Renderer.render c s mapReadOk mapWriteOk surfaceOk st).state.instanceBuffer
        = st.instanceBuffer ∧
    (Renderer.render c s mapReadOk mapWriteOk surfaceOk st).state.submissions
        = st.submissions ∧
    (Renderer.render c s mapReadOk mapWriteOk surfaceOk st).state.presented
        = st.presented ∧
    (Renderer.render c s mapReadOk mapWriteOk surfaceOk st).state.acquireAttempts
        = st.acquireAttempts := by
  cases mapReadOk with
  | false =>
      refine ⟨?_, ?_, ?_, ?_, ?_, ?_⟩ <;>
        simp [Renderer.render, RenderOutcome.isErr, RenderOutcome.isPanic,
          RenderOutcome.state]
  | true =>
      cases mapWriteOk with
      | false =>
          refine ⟨?_, ?_, ?_, ?_, ?_, ?_⟩ <;>
            simp [Renderer.render, RenderOutcome.isErr, RenderOutcome.isPanic,
              RenderOutcome.state]
      | true => simp at h

/-- Witness for C7: a failed read map at a concrete state is a typed
abort that changes no buffer and submits nothing. -/
theorem map_failure_typed_abort_witness :
    (Renderer.render (0 : ℚ) 0 false true true sampleState).isErr = true ∧
    (Renderer.render (0 : ℚ) 0 false true true sampleState).isPanic = false ∧
    (Renderer.render (0 : ℚ) 0 false true true sampleState).state.instanceBuffer
        = sampleState.instanceBuffer ∧
    (Renderer.render (0 : ℚ) 0 false true true sampleState).state.submissions
        = sampleState.submissions ∧
    (Renderer.render (0 : ℚ) 0 false true true sampleState).state.presented
        = sampleState.presented ∧
    (Renderer.render (0 : ℚ) 0 false true true sampleState).state.acquireAttempts
        = sampleState.acquireAttempts :=
  map_failure_typed_abort 0 0 true sampleState false true (Or.inl rfl)

/-- C10: a `render` call leaves the vertex buffer, the uniform
(projection) buffer and the two instance slots not selected by the
post-advance cursor unchanged; only the selected slot's instance buffer
can be written. -/
theorem render_touches_only_selected_slot {α : Type} [Field α] (c s : α)
    (mapReadOk mapWriteOk surfaceOk : Bool) (st : RendererState α) :
    (Renderer.render c s mapReadOk mapWriteOk surfaceOk st).state.vertexBuffer
        = st.vertexBuffer ∧
    (Renderer.render c s mapReadOk mapWriteOk surfaceOk st).state.uniformBuffer
        = st.uniformBuffer ∧
    ∀ j : Fin 3, (j : Nat) ≠ (st.frame + 1) % NUM_MAX_INFLIGHT_BUFFERS →
      (Renderer.render c s mapReadOk mapWriteOk surfaceOk st).state.instanceBuffer j
          = st.instanceBuffer j := by
  refine ⟨?_, ?_, ?_⟩ <;>
    cases mapReadOk <;> cases mapWriteOk <;> cases surfaceOk <;>
      simp [Renderer.render, RenderOutcome.state]
  all_goals
    intro j hj
    rw [Function.update_noteq]
    exact fun hco => hj (congrArg Fin.val hco)

/-- Witness for C10: with the cursor at its initial value 3 the selected
slot is 1, and slot 0 is untouched by a successful render at a concrete
state. -/
theorem render_touches_only_selected_slot_witness :
    (Renderer.render (0 : ℚ) 0 true true true sampleState).state.instanceBuffer 0
        = sampleState.instanceBuffer 0 :=
  (render_touches_only_selected_slot (0 : ℚ) 0 true true true sampleState).2.2
    0 (by decide)

/-- C6: the background device-polling activity wakes at a fixed 100ms
interval, and each wakeup drives the device's internal completion queue
forward so that every pending asynchronous map/submit-completion
operation resolves; the tick is a function of the completion queue
alone, independent of any frame pipeline or window-event state. -/
theorem device_poller_periodic_resolution (n : Nat) (q : CompletionQueue)
    (op : Nat) (h : op ∈ q.pending) :
    pollTime (n + 1) - pollTime n = pollIntervalMillis ∧
    pollIntervalMillis = 100 ∧
    op ∈ (devicePollTick q).resolved ∧
    (devicePollTick q).pending = [] := by
  refine ⟨?_, rfl, ?_, rfl⟩
  · simp [pollTime, pollIntervalMillis]
    omega
  · simp [devicePollTick]
    exact Or.inr h

/-- Witness for C6: the first two wakeups are 100ms apart and a
concrete pending operation resolves at a tick. -/
theorem device_poller_periodic_resolution_witness :
    pollTime 1 - pollTime 0 = pollIntervalMillis ∧
    pollIntervalMillis = 100 ∧
    7 ∈ (devicePollTick ⟨[7], []⟩).resolved ∧
    (devicePollTick ⟨[7], []⟩).pending = [] :=
  device_poller_periodic_resolution 0 ⟨[7], []⟩ 7 (by simp)

/-- C8 counterexample: for a device that supports NO format/size
combination, `configure_surface` at the startup size still returns
success — the unsupported configuration is not reported through the
return value, refuting the claim that an unsupported format/size yields
a reported configuration error. -/
theorem configure_surface_silent_success :
    noSupportDevice.supports ⟨0⟩ 640 360 = false ∧
    configure_surface noSupportDevice ⟨0⟩ (640, 360)
        = Except.ok
            { usage := .renderAttachment,
              format := ⟨0⟩,
              width := 640,
              height := 360,
              present_mode := .Fifo } :=
  ⟨rfl, rfl⟩

/-- C8 (amended): surface configuration can be called repeatedly (it is
a pure function of the startup format and the size, hence idempotent for
an unchanged size), always uses the FIFO present mode and the format
chosen at startup — but it returns success unconditionally: device
support for the requested format/size is never consulted, so an
unsupported configuration is not reported through the return value. -/
theorem configure_surface_fixed_mode (device : Device)
    (surface_format : TextureFormat) (size : Nat × Nat) :
    configure_surface device surface_format size
        = Except.ok
            { usage := .renderAttachment,
              format := surface_format,
              width := size.1,
              height := size.2,
              present_mode := .Fifo } ∧
    (∀ d2 : Device,
      configure_surface d2 surface_format size
          = configure_surface device surface_format size) :=
  ⟨rfl, fun _ => rfl⟩

/-- C9: handling a resize event to size S stores S in the surface
configuration's width and height immediately (before any subsequent
frame acquisition), so the next successfully acquired frame target has
dimensions exactly S. -/
theorem resize_visible_before_acquire (ctx : GPUContext) (S : Nat × Nat) :
    (App.handleWindowEvent ctx (WindowEvent.Resized S)).surface_configuration.width
        = S.1 ∧
    (App.handleWindowEvent ctx (WindowEvent.Resized S)).surface_configuration.height
        = S.2 ∧
    (App.handleWindowEvent ctx (WindowEvent.Resized S)).acquiredFrameDims = S := by
  refine ⟨rfl, rfl, ?_⟩
  simp [App.handleWindowEvent, GPUContext.resize_surface,
    GPUContext.acquiredFrameDims]

end Antimodern
